import Mathlib

/-!
Shallow embedding of the two page controllers of the comit-space-client
repository:

* `src/app/(main)/study/open/page.tsx` — the "open study" creation form,
* `src/app/(main)/mystudy/[id]/edit/page.tsx` — the "study edit" form.

The tag editor (`handleTagAdd`, `handleDuplicateTag`, the `+` button, the
`Reset` button) and the time-selector handlers (`onChangeStartTime`,
`onChangeEndTime`) are textually identical in the two pages, so they are
embedded once.  The creation flow's `onSubmit` and the edit flow's
`fetchStudy` response handling are embedded as functions from a small
environment (backend / storage oracle) to the sequence of observable
effects they perform.
-/

namespace Comit

/-! ## Tag editor

State touched by the tag handlers of either page:

* `tags` — the react-hook-form `tags` field (`watch('tags')` / `getValues('tags')`);
* `currentTag` — the controlled `<Input>` value (`currentTag` state);
* `stackError` — the local capacity-error message (`stackError` state, set
  via `setTagError`);
* `tagFieldError` — the react-hook-form field error on `tags`
  (`setError('tags', ...)` / `clearErrors('tags')`), `none` when clear.
-/

structure TagState where
  tags : List String
  currentTag : String
  stackError : String
  tagFieldError : Option String
  deriving Repr, DecidableEq

/-- JavaScript `String.prototype.trim`, modelled structurally: drops
leading and trailing whitespace.  (`Char.isWhitespace` covers space, tab,
CR and LF — the whitespace that can occur in the ASCII/Korean tag inputs
at issue.) -/
def jsTrim (s : String) : String :=
  ⟨((s.data.dropWhile fun c => c.isWhitespace).reverse.dropWhile
      fun c => c.isWhitespace).reverse⟩

def capacityMsg : String := "스택은 최대 4개까지만 입력 가능합니다"

def duplicateMsg : String := "중복 스택이 존재합니다"

/-- Embeds `handleDuplicateTag` (open page lines 184–197, edit page lines
246–259): `newTag = getValues('tags').concat(currentTag)`; if
`new Set(newTag).size === getValues('tags').length` set the duplicate field
error, else clear the field errors and store `newTag`; finally clear the
input.  `new Set(xs).size` is the number of distinct elements of `xs`,
i.e. `xs.dedup.length`.  (The source's `getValues('tags') ? newTag :
[currentTag]` always takes `newTag`, since a JavaScript array is truthy.) -/
def handleDuplicateTag (s : TagState) : TagState :=
  let newTag := s.tags ++ [s.currentTag]
  if newTag.dedup.length = s.tags.length then
    { s with tagFieldError := some duplicateMsg, currentTag := "" }
  else
    { s with tagFieldError := none, tags := newTag, currentTag := "" }

/-- Embeds `handleTagAdd` (open page lines 173–183, edit page lines
234–244), the `onKeyUp` handler of the tag input.  The input is controlled
(`value={currentTag}`), so `e.currentTarget.value` is `currentTag`. -/
def handleTagAdd (key : String) (s : TagState) : TagState :=
  let newTag := jsTrim s.currentTag
  let s1 :=
    if s.tags.length = 4 then
      if newTag ≠ "" then { s with stackError := capacityMsg }
      else { s with stackError := "" }
    else s
  if key = "Enter" ∧ newTag ≠ "" then
    if s1.tags.length ≠ 4 then handleDuplicateTag s1
    else { s1 with currentTag := "" }
  else s1

/-- Embeds a click of the `+` button next to the tag input: it runs
`handleDuplicateTag`, but the button is `disabled` when
`currentTag.trim() === '' || watchedTags.length >= 4`, so a click has an
effect only when the trimmed input is non-empty and fewer than 4 tags are
present. -/
def handleTagButtonClick (s : TagState) : TagState :=
  if jsTrim s.currentTag ≠ "" ∧ s.tags.length < 4 then handleDuplicateTag s
  else s

/-- Embeds a click of the `Reset` button: `setTagError('')`,
`clearErrors('tags')`, `setValue('tags', [])`. -/
def handleTagReset (s : TagState) : TagState :=
  { s with stackError := "", tagFieldError := none, tags := [] }

/-- Embeds `handleTagChange`, the `onChange` of the tag input:
`setCurrentTag(e.target.value)`. -/
def handleTagChange (v : String) (s : TagState) : TagState :=
  { s with currentTag := v }

/-- The tag-editor events a user can fire on either page. -/
inductive TagOp where
  | typeInput (v : String)
  | keyUp (key : String)
  | clickAdd
  | reset
  deriving Repr, DecidableEq

def tagStep (s : TagState) : TagOp → TagState
  | .typeInput v => handleTagChange v s
  | .keyUp key => handleTagAdd key s
  | .clickAdd => handleTagButtonClick s
  | .reset => handleTagReset s

def runTags (s : TagState) (ops : List TagOp) : TagState :=
  ops.foldl tagStep s

example :
    (handleTagAdd "Enter" ⟨[], "react", "", none⟩).tags = ["react"] := by
  decide

example :
    (handleTagAdd "Enter" ⟨["a", "b", "c", "d"], "e", "", none⟩).tags
      = ["a", "b", "c", "d"] := by
  decide

example :
    (handleTagAdd "Enter" ⟨["a", "b", "c", "d"], "e", "", none⟩).stackError
      = capacityMsg := by
  decide

example :
    (handleDuplicateTag ⟨["a"], "a", "", none⟩).tagFieldError
      = some duplicateMsg := by
  decide

example :
    (handleTagAdd "Enter" ⟨[], "a ", "", none⟩).tags = ["a "] := by
  decide

/-! ## Create flow (`src/app/(main)/study/open/page.tsx`, `onSubmit`)

The submitted form data (`StudyForm` in the source is `Omit<Study, 'id' |
'mentor' | 'isRecruiting'>`; the union types `Day`, `Campus`, `Level` are
string literals and are embedded as strings). -/

structure StudyForm where
  imageSrc : String
  title : String
  day : String
  startTime : String
  endTime : String
  campus : String
  level : String
  tags : List String
  description : String
  deriving Repr, DecidableEq

/-- The JSON body `onSubmit` sends to the create endpoint:
`{ ...data, imageSrc: fileUrl, isRecruiting: true, semester: 'Spring',
year: 2025 }`. -/
structure CreatePayload where
  imageSrc : String
  title : String
  day : String
  startTime : String
  endTime : String
  campus : String
  level : String
  tags : List String
  description : String
  isRecruiting : Bool
  semester : String
  year : Nat
  deriving Repr, DecidableEq

def createPayload (data : StudyForm) (fileUrl : String) : CreatePayload :=
  { imageSrc := fileUrl
    title := data.title
    day := data.day
    startTime := data.startTime
    endTime := data.endTime
    campus := data.campus
    level := data.level
    tags := data.tags
    description := data.description
    isRecruiting := true
    semester := "Spring"
    year := 2025 }

/-- Navigation targets reached through `router.push`; `studyListing` stands
for `ROUTES.STUDY.index.url`, `myStudyDetail id` for `/mystudy/id`. -/
inductive Route where
  | studyListing
  | myStudyDetail (id : Nat)
  deriving Repr, DecidableEq

/-- Observable effects of the create-flow `onSubmit`, in program order. -/
inductive Effect where
  | closeDialogClick
  | upload (file : String)
  | backendCreate (payload : CreatePayload)
  | deleteUpload
  | commitUpload
  | toastSuccess (title description : String)
  | navigate (r : Route)
  deriving Repr, DecidableEq

/-- The create-flow environment: the staged file (`imageFile` state, `none`
when no file was picked), the URL the storage collaborator returns for the
upload (`file.supabaseFileData.url`), and whether the create endpoint's
response is `ok`. -/
structure CreateEnv where
  imageFile : Option String
  uploadUrl : String
  backendOk : Bool
  deriving Repr, DecidableEq

/-- Embeds the create-flow `onSubmit` (open page lines 125–155) as the list
of effects it performs:
`document.getElementById('closeDialog')?.click()`; early return when no
file is staged; otherwise upload, POST the payload, and on `!res.ok` delete
the upload and return, else commit, toast success and
`router.push(ROUTES.STUDY.index.url)`. -/
def onSubmitCreate (env : CreateEnv) (data : StudyForm) : List Effect :=
  match env.imageFile with
  | none => [.closeDialogClick]
  | some f =>
    let fileUrl := env.uploadUrl
    let pre : List Effect :=
      [.closeDialogClick, .upload f, .backendCreate (createPayload data fileUrl)]
    if env.backendOk then
      pre ++ [.commitUpload,
              .toastSuccess "스터디 생성 완료" "스터디가 성공적으로 생성되었습니다.",
              .navigate .studyListing]
    else
      pre ++ [.deleteUpload]

/-! ## Edit flow fetch (`src/app/(main)/mystudy/[id]/edit/page.tsx`,
`fetchStudy` inside the mount effect)

`fetchStudy` wraps its body in `try { ... } catch (error) { toast(...) }
finally { setIsLoading(false) }`.  Next.js's `notFound()` signals by
throwing a `NEXT_NOT_FOUND` error, which only routes to the not-found view
if it propagates out of user code to the framework; an enclosing `catch`
that swallows it prevents that routing.  The embedding therefore makes the
exception flow explicit. -/

/-- What the `try` block can throw: `notFound()` (a thrown `NEXT_NOT_FOUND`
signal) or an ordinary `Error` with a message. -/
inductive FetchErr where
  | nextNotFound
  | generic (msg : String)
  deriving Repr, DecidableEq

/-- The backend response to `RETRIEVE(id)`: its `ok` flag, HTTP status, and
(on success) the study record in the envelope's `data` field. -/
structure FetchResponse where
  ok : Bool
  status : Nat
  data : StudyForm
  deriving Repr, DecidableEq

def httpNotFound : Nat := 404

/-- The `try` block of `fetchStudy` (edit page lines 109–150): on `!res.ok`
a 404 status calls `notFound()` (which throws; the missing `break` is
unreachable) and any other status throws a generic `Error`; on success the
record hydrates the form.  Returns the thrown error or the hydrated form
values. -/
def fetchStudyTry (res : FetchResponse) : Except FetchErr StudyForm :=
  if !res.ok then
    if res.status = httpNotFound then .error .nextNotFound
    else .error (.generic "스터디 정보를 불러오는 중 오류가 발생했습니다.")
  else .ok res.data

/-- The page-level outcome of running `fetchStudy` to completion. -/
structure FetchOutcome where
  /-- the destructive "fetch failed" toast was shown (the `catch` block) -/
  errorToastShown : Bool
  /-- the framework rendered the dedicated not-found view (requires the
  `NEXT_NOT_FOUND` throw to escape user code) -/
  notFoundViewShown : Bool
  /-- the form values hydrated from the fetched record, if any -/
  hydrated : Option StudyForm
  /-- `isLoading` after the `finally`; `false` means the form renders -/
  isLoading : Bool
  deriving Repr, DecidableEq

/-- Embeds `fetchStudy` (edit page lines 108–161) end to end: the `catch`
clause catches every error thrown in the `try` block — including the
`NEXT_NOT_FOUND` signal of `notFound()` — logs it and shows the generic
destructive toast, and the `finally` clause sets `isLoading` to `false`,
after which the component renders the form. -/
def fetchStudy (res : FetchResponse) : FetchOutcome :=
  match fetchStudyTry res with
  | .error _ =>
    { errorToastShown := true
      notFoundViewShown := false
      hydrated := none
      isLoading := false }
  | .ok form =>
    { errorToastShown := false
      notFoundViewShown := false
      hydrated := some form
      isLoading := false }

/-! ## Time selector (`onChangeStartTime` / `onChangeEndTime`, open page
lines 202–214, edit page lines 262–274) -/

/-- The slice of a JavaScript `Date` that `formatDateToTime` consumes. -/
structure JsDate where
  hours : Nat
  minutes : Nat
  deriving Repr, DecidableEq

def pad2 (n : Nat) : String :=
  if n < 10 then "0" ++ toString n else toString n

/-- Modelled from the spec: `formatDateToTime` lives in
`@/components/ui/time-picker-utils`, which is not part of the two source
files; per §4.2 it "formats it to a zero-padded 24-hour \x22HH:MM\x22
string". -/
def formatDateToTime (d : JsDate) : String :=
  pad2 d.hours ++ ":" ++ pad2 d.minutes

/-- The state the two time handlers touch: the `startTime`/`endTime` form
fields (`none` before any `setValue`) and the picker state fed back to the
`TimePicker`. -/
structure TimeState where
  startTimeField : Option String
  endTimeField : Option String
  startTimePicker : Option JsDate
  endTimePicker : Option JsDate
  deriving Repr, DecidableEq

/-- Embeds `onChangeStartTime`: `if (typeof date !== 'undefined')` set the
`startTime` field to `formatDateToTime(date)` and the picker state to
`date`; otherwise do nothing. -/
def onChangeStartTime (d : Option JsDate) (s : TimeState) : TimeState :=
  match d with
  | none => s
  | some d =>
    { s with startTimeField := some (formatDateToTime d), startTimePicker := some d }

/-- Embeds `onChangeEndTime`, symmetric to `onChangeStartTime`. -/
def onChangeEndTime (d : Option JsDate) (s : TimeState) : TimeState :=
  match d with
  | none => s
  | some d =>
    { s with endTimeField := some (formatDateToTime d), endTimePicker := some d }

/-! ## Helper lemmas about the tag editor -/

/-- `new Set(l ++ [c]).size == l.length` detects exactly the duplicate
candidates when `l` is duplicate-free. -/
lemma dedup_concat_length {l : List String} {c : String} (h : l.Nodup) :
    (l ++ [c]).dedup.length = l.length ↔ c ∈ l := by
  have hlen : l.dedup.length = l.length := by rw [List.dedup_eq_self.mpr h]
  by_cases hc : c ∈ l
  · have : (l ++ [c]).toFinset = l.toFinset := by
      rw [List.toFinset_append]
      simp [Finset.union_comm, Finset.insert_eq_self, hc]
    have hcard := List.card_toFinset (l ++ [c])
    rw [this, List.card_toFinset, hlen] at hcard
    simp [← hcard, hc]
  · have : (l ++ [c]).toFinset = insert c l.toFinset := by
      rw [List.toFinset_append]
      simp [Finset.union_comm, Finset.insert_eq]
    have hcard := List.card_toFinset (l ++ [c])
    rw [this, Finset.card_insert_of_not_mem (by simpa using hc),
        List.card_toFinset, hlen] at hcard
    constructor
    · intro he
      omega
    · intro he
      exact absurd he hc

/-- `handleDuplicateTag` either leaves the list alone or appends the raw
`currentTag`, the latter exactly when the set-cardinality check fails. -/
lemma handleDuplicateTag_tags (s : TagState) :
    ((s.tags ++ [s.currentTag]).dedup.length = s.tags.length
        ∧ (handleDuplicateTag s).tags = s.tags)
    ∨ ((s.tags ++ [s.currentTag]).dedup.length ≠ s.tags.length
        ∧ (handleDuplicateTag s).tags = s.tags ++ [s.currentTag]) := by
  unfold handleDuplicateTag
  by_cases h : (s.tags ++ [s.currentTag]).dedup.length = s.tags.length
  · left
    exact ⟨h, by simp [h]⟩
  · right
    exact ⟨h, by simp [h]⟩

lemma handleDuplicateTag_nodup (s : TagState) (h : s.tags.Nodup) :
    (handleDuplicateTag s).tags.Nodup := by
  rcases handleDuplicateTag_tags s with ⟨_, he⟩ | ⟨hne, he⟩
  · rw [he]; exact h
  · rw [he, ← List.concat_eq_append]
    exact h.concat (fun hm => hne ((dedup_concat_length h).mpr hm))

lemma handleTagAdd_tags_cases (key : String) (s : TagState) :
    (handleTagAdd key s).tags = s.tags
    ∨ (handleTagAdd key s).tags = (handleDuplicateTag s).tags := by
  unfold handleTagAdd
  by_cases h4 : s.tags.length = 4 <;>
    by_cases hk : key = "Enter" <;>
      by_cases ht : jsTrim s.currentTag = "" <;>
        simp [h4, hk, ht, handleDuplicateTag]

lemma handleTagAdd_nodup (key : String) (s : TagState) (h : s.tags.Nodup) :
    (handleTagAdd key s).tags.Nodup := by
  rcases handleTagAdd_tags_cases key s with he | he
  · rw [he]; exact h
  · rw [he]; exact handleDuplicateTag_nodup s h

lemma tagStep_nodup (s : TagState) (op : TagOp) (h : s.tags.Nodup) :
    (tagStep s op).tags.Nodup := by
  cases op with
  | typeInput v => simpa [tagStep, handleTagChange] using h
  | keyUp key => simpa [tagStep] using handleTagAdd_nodup key s h
  | clickAdd =>
    simp only [tagStep, handleTagButtonClick]
    split
    · exact handleDuplicateTag_nodup s h
    · exact h
  | reset => simp [tagStep, handleTagReset]

lemma handleTagAdd_tags_of_length4 (key : String) (s : TagState)
    (h4 : s.tags.length = 4) : (handleTagAdd key s).tags = s.tags := by
  unfold handleTagAdd
  by_cases ht : jsTrim s.currentTag = "" <;>
    by_cases hk : key = "Enter" <;> simp [h4, ht, hk]

/-! ## Claim theorems: tag editor -/

/-- C4: every tag addition (key event or `+` click) on a list of at most 4
entries yields a list of at most 4 entries; when the list already holds
exactly 4 entries and a non-empty candidate is submitted with Enter, the
capacity error message is set and the list is unchanged. -/
theorem tag_capacity_invariant (s : TagState) (key : String)
    (h : s.tags.length ≤ 4) :
    (handleTagAdd key s).tags.length ≤ 4
    ∧ (handleTagButtonClick s).tags.length ≤ 4
    ∧ (s.tags.length = 4 → jsTrim s.currentTag ≠ "" →
        (handleTagAdd "Enter" s).stackError = capacityMsg
        ∧ (handleTagAdd "Enter" s).tags = s.tags) := by
  refine ⟨?_, ?_, ?_⟩
  · by_cases h4 : s.tags.length = 4
    · rw [handleTagAdd_tags_of_length4 key s h4, h4]
    · rcases handleTagAdd_tags_cases key s with he | he
      · rw [he]; exact h
      · rw [he]
        rcases handleDuplicateTag_tags s with ⟨_, he2⟩ | ⟨_, he2⟩
        · rw [he2]; exact h
        · rw [he2]
          simp only [List.length_append, List.length_singleton]
          omega
  · unfold handleTagButtonClick
    split
    · rename_i hcond
      rcases handleDuplicateTag_tags s with ⟨_, he2⟩ | ⟨_, he2⟩
      · rw [he2]; exact h
      · rw [he2]
        simp only [List.length_append, List.length_singleton]
        omega
    · exact h
  · intro h4 ht
    refine ⟨?_, handleTagAdd_tags_of_length4 "Enter" s h4⟩
    unfold handleTagAdd
    simp [h4, ht]

theorem tag_capacity_invariant_witness :
    (["a", "b", "c", "d"] : List String).length ≤ 4
    ∧ (handleTagAdd "Enter" ⟨["a", "b", "c", "d"], "e", "", none⟩).stackError
        = capacityMsg
    ∧ (handleTagAdd "Enter" ⟨["a", "b", "c", "d"], "e", "", none⟩).tags
        = ["a", "b", "c", "d"] :=
  ⟨by decide,
   ((tag_capacity_invariant ⟨["a", "b", "c", "d"], "e", "", none⟩ "Enter"
       (by decide)).2.2 (by decide) (by decide)).1,
   ((tag_capacity_invariant ⟨["a", "b", "c", "d"], "e", "", none⟩ "Enter"
       (by decide)).2.2 (by decide) (by decide)).2⟩

/-- C5: on a duplicate-free list of fewer than 4 entries,
`handleDuplicateTag` sets the duplicate field error and leaves the list
alone exactly when the candidate already occurs in the list (which, on a
duplicate-free list, is when `new Set(tags ++ [candidate]).size ==
tags.length`); otherwise it appends the candidate and clears the tag field
errors. -/
theorem tag_duplicate_check (s : TagState) (_hlen : s.tags.length < 4)
    (hnd : s.tags.Nodup) :
    ((s.tags ++ [s.currentTag]).dedup.length = s.tags.length
        ↔ s.currentTag ∈ s.tags)
    ∧ (s.currentTag ∈ s.tags →
       (handleDuplicateTag s).tagFieldError = some duplicateMsg
       ∧ (handleDuplicateTag s).tags = s.tags)
    ∧ (s.currentTag ∉ s.tags →
       (handleDuplicateTag s).tags = s.tags ++ [s.currentTag]
       ∧ (handleDuplicateTag s).tagFieldError = none) := by
  refine ⟨dedup_concat_length hnd, ?_, ?_⟩
  · intro hc
    have hd : (s.tags ++ [s.currentTag]).dedup.length = s.tags.length :=
      (dedup_concat_length hnd).mpr hc
    unfold handleDuplicateTag
    simp [hd]
  · intro hc
    have hd : ¬(s.tags ++ [s.currentTag]).dedup.length = s.tags.length :=
      fun h => hc ((dedup_concat_length hnd).mp h)
    unfold handleDuplicateTag
    simp [hd]

theorem tag_duplicate_check_witness :
    ((handleDuplicateTag ⟨["a"], "a", "", none⟩).tagFieldError
        = some duplicateMsg
      ∧ (handleDuplicateTag ⟨["a"], "a", "", none⟩).tags = ["a"])
    ∧ ((handleDuplicateTag ⟨["a"], "b", "", none⟩).tags = ["a", "b"]
      ∧ (handleDuplicateTag ⟨["a"], "b", "", none⟩).tagFieldError = none) :=
  ⟨(tag_duplicate_check ⟨["a"], "a", "", none⟩ (by decide) (by decide)).2.1
     (by decide),
   (tag_duplicate_check ⟨["a"], "b", "", none⟩ (by decide) (by decide)).2.2
     (by decide)⟩

/-- C6: starting from a duplicate-free tag list, any sequence of tag-editor
events (typing, key events, `+` clicks, resets) leaves the tag list free of
duplicates under exact string equality. -/
theorem tag_nodup_invariant (s : TagState) (ops : List TagOp)
    (h : s.tags.Nodup) : (runTags s ops).tags.Nodup := by
  induction ops generalizing s with
  | nil => exact h
  | cons op ops ih => exact ih (tagStep s op) (tagStep_nodup s op h)

theorem tag_nodup_invariant_witness :
    (["react"] : List String).Nodup
    ∧ (runTags ⟨["react"], "", "", none⟩
        [.typeInput "next", .keyUp "Enter", .clickAdd, .typeInput "react",
         .keyUp "Enter", .reset, .typeInput "ts", .keyUp "Enter"]).tags.Nodup :=
  ⟨by decide, tag_nodup_invariant ⟨["react"], "", "", none⟩ _ (by decide)⟩

/-- C7 counterexample: submitting the candidate `"a "` (trailing blank) on
an empty list appends the raw string `"a "`, not its trimmed form `"a"` —
the entry appended to the list does not equal the trimmed candidate. -/
theorem tag_trim_counterexample :
    (handleTagAdd "Enter" ⟨[], "a ", "", none⟩).tags = ["a "]
    ∧ jsTrim "a " = "a"
    ∧ ("a " : String) ≠ "a" := by
  refine ⟨by decide, by decide, by decide⟩

/-- C7 amended: trimming is applied only to the emptiness (and capacity)
checks — submitting an empty or whitespace-only candidate leaves the list,
the tag field error and the input unchanged, and the `+` button does
nothing; but whenever the list is mutated, the entry appended is the raw,
untrimmed candidate. -/
theorem tag_trim_behaviour (s : TagState) (key : String) :
    (jsTrim s.currentTag = "" →
       (handleTagAdd key s).tags = s.tags
       ∧ (handleTagAdd key s).tagFieldError = s.tagFieldError
       ∧ (handleTagAdd key s).currentTag = s.currentTag
       ∧ handleTagButtonClick s = s)
    ∧ ((handleTagAdd key s).tags ≠ s.tags →
       (handleTagAdd key s).tags = s.tags ++ [s.currentTag]) := by
  constructor
  · intro ht
    refine ⟨?_, ?_, ?_, ?_⟩ <;>
      [skip; skip; skip; simp [handleTagButtonClick, ht]] <;>
      unfold handleTagAdd <;>
      by_cases h4 : s.tags.length = 4 <;> simp [h4, ht]
  · intro hne
    rcases handleTagAdd_tags_cases key s with he | he
    · exact absurd he hne
    · rw [he] at hne ⊢
      rcases handleDuplicateTag_tags s with ⟨_, he2⟩ | ⟨_, he2⟩
      · exact absurd he2 hne
      · exact he2

theorem tag_trim_behaviour_witness :
    jsTrim "  " = ""
    ∧ (handleTagAdd "Enter" ⟨["x"], "  ", "", some duplicateMsg⟩).tags = ["x"]
    ∧ (handleTagAdd "Enter" ⟨["x"], "  ", "", some duplicateMsg⟩).tagFieldError
        = some duplicateMsg
    ∧ (handleTagAdd "Enter" ⟨["x"], "  ", "", some duplicateMsg⟩).currentTag
        = "  "
    ∧ handleTagButtonClick ⟨["x"], "  ", "", some duplicateMsg⟩
        = ⟨["x"], "  ", "", some duplicateMsg⟩
    ∧ (handleTagAdd "Enter" ⟨[], "b ", "", none⟩).tags = [] ++ ["b "] :=
  ⟨by decide,
   ((tag_trim_behaviour ⟨["x"], "  ", "", some duplicateMsg⟩ "Enter").1
       (by decide)).1,
   ((tag_trim_behaviour ⟨["x"], "  ", "", some duplicateMsg⟩ "Enter").1
       (by decide)).2.1,
   ((tag_trim_behaviour ⟨["x"], "  ", "", some duplicateMsg⟩ "Enter").1
       (by decide)).2.2.1,
   ((tag_trim_behaviour ⟨["x"], "  ", "", some duplicateMsg⟩ "Enter").1
       (by decide)).2.2.2,
   (tag_trim_behaviour ⟨[], "b ", "", none⟩ "Enter").2 (by decide)⟩

/-! ## Claim theorems: create flow -/

/-- C1: when a file is staged and the create endpoint's response is not
`ok`, `onSubmitCreate` deletes the just-uploaded object, never commits it,
navigates nowhere, and shows no notification — the rollback is silent. -/
theorem create_failure_silent_rollback (env : CreateEnv) (data : StudyForm)
    (f : String) (hf : env.imageFile = some f)
    (hok : env.backendOk = false) :
    onSubmitCreate env data
      = [.closeDialogClick, .upload f,
         .backendCreate (createPayload data env.uploadUrl), .deleteUpload]
    ∧ Effect.commitUpload ∉ onSubmitCreate env data
    ∧ (∀ r, Effect.navigate r ∉ onSubmitCreate env data)
    ∧ (∀ t d, Effect.toastSuccess t d ∉ onSubmitCreate env data) := by
  simp [onSubmitCreate, hf, hok]

theorem create_failure_silent_rollback_witness :
    onSubmitCreate ⟨some "pic.png", "https://storage/u1", false⟩
        ⟨"local", "t", "월", "10:00", "11:00", "율전", "초급", ["react"], "d"⟩
      = [.closeDialogClick, .upload "pic.png",
         .backendCreate (createPayload
           ⟨"local", "t", "월", "10:00", "11:00", "율전", "초급", ["react"], "d"⟩
           "https://storage/u1"),
         .deleteUpload] :=
  (create_failure_silent_rollback ⟨some "pic.png", "https://storage/u1", false⟩
    ⟨"local", "t", "월", "10:00", "11:00", "율전", "초급", ["react"], "d"⟩
    "pic.png" rfl rfl).1

/-- C2: when a file is staged and the create endpoint's response is `ok`,
the upload happens strictly before the backend call, the upload is
committed and never deleted, the success toast is shown, and the page
navigates to the study listing. -/
theorem create_success_commits (env : CreateEnv) (data : StudyForm)
    (f : String) (hf : env.imageFile = some f)
    (hok : env.backendOk = true) :
    onSubmitCreate env data
      = [.closeDialogClick, .upload f,
         .backendCreate (createPayload data env.uploadUrl), .commitUpload,
         .toastSuccess "스터디 생성 완료" "스터디가 성공적으로 생성되었습니다.",
         .navigate .studyListing]
    ∧ (∃ pre mid post, onSubmitCreate env data
         = pre ++ [Effect.upload f] ++ mid
             ++ [Effect.backendCreate (createPayload data env.uploadUrl)]
             ++ post)
    ∧ Effect.commitUpload ∈ onSubmitCreate env data
    ∧ Effect.deleteUpload ∉ onSubmitCreate env data
    ∧ Effect.toastSuccess "스터디 생성 완료" "스터디가 성공적으로 생성되었습니다."
        ∈ onSubmitCreate env data
    ∧ Effect.navigate .studyListing ∈ onSubmitCreate env data := by
  refine ⟨by simp [onSubmitCreate, hf, hok], ?_, ?_, ?_, ?_, ?_⟩
  · exact ⟨[.closeDialogClick], [],
      [.commitUpload,
       .toastSuccess "스터디 생성 완료" "스터디가 성공적으로 생성되었습니다.",
       .navigate .studyListing],
      by simp [onSubmitCreate, hf, hok]⟩
  all_goals simp [onSubmitCreate, hf, hok]

theorem create_success_commits_witness :
    onSubmitCreate ⟨some "pic.png", "https://storage/u1", true⟩
        ⟨"local", "t", "월", "10:00", "11:00", "율전", "초급", ["react"], "d"⟩
      = [.closeDialogClick, .upload "pic.png",
         .backendCreate (createPayload
           ⟨"local", "t", "월", "10:00", "11:00", "율전", "초급", ["react"], "d"⟩
           "https://storage/u1"),
         .commitUpload,
         .toastSuccess "스터디 생성 완료" "스터디가 성공적으로 생성되었습니다.",
         .navigate .studyListing] :=
  (create_success_commits ⟨some "pic.png", "https://storage/u1", true⟩
    ⟨"local", "t", "월", "10:00", "11:00", "율전", "초급", ["react"], "d"⟩
    "pic.png" rfl rfl).1

/-- C8: when no file is staged, `onSubmitCreate` only performs the
dialog-closing click: no upload, no backend call, no toast, no
navigation. -/
theorem create_no_file_aborts (env : CreateEnv) (data : StudyForm)
    (h : env.imageFile = none) :
    onSubmitCreate env data = [.closeDialogClick]
    ∧ (∀ f, Effect.upload f ∉ onSubmitCreate env data)
    ∧ (∀ p, Effect.backendCreate p ∉ onSubmitCreate env data)
    ∧ (∀ t d, Effect.toastSuccess t d ∉ onSubmitCreate env data)
    ∧ (∀ r, Effect.navigate r ∉ onSubmitCreate env data) := by
  simp [onSubmitCreate, h]

theorem create_no_file_aborts_witness :
    onSubmitCreate ⟨none, "https://storage/u1", true⟩
        ⟨"local", "t", "월", "10:00", "11:00", "율전", "초급", ["react"], "d"⟩
      = [.closeDialogClick] :=
  (create_no_file_aborts ⟨none, "https://storage/u1", true⟩
    ⟨"local", "t", "월", "10:00", "11:00", "율전", "초급", ["react"], "d"⟩
    rfl).1

/-- C10: every payload `onSubmitCreate` sends to the create endpoint
carries `isRecruiting = true`, `semester = "Spring"`, `year = 2025`, and
its `imageSrc` is the storage-returned URL, not the form's local preview
URL, whatever the form data. -/
theorem create_payload_constants (env : CreateEnv) (data : StudyForm)
    (p : CreatePayload)
    (hp : Effect.backendCreate p ∈ onSubmitCreate env data) :
    p.isRecruiting = true ∧ p.semester = "Spring" ∧ p.year = 2025
    ∧ p.imageSrc = env.uploadUrl
    ∧ (data.imageSrc ≠ env.uploadUrl → p.imageSrc ≠ data.imageSrc) := by
  have hep : p = createPayload data env.uploadUrl := by
    rcases henv : env.imageFile with _ | f <;>
      rcases hok : env.backendOk <;>
        simp [onSubmitCreate, henv, hok] at hp <;> exact hp
  subst hep
  refine ⟨rfl, rfl, rfl, rfl, ?_⟩
  intro hne
  simpa [createPayload] using fun h => hne h.symm

theorem create_payload_constants_witness :
    (createPayload
        ⟨"local", "t", "월", "10:00", "11:00", "율전", "초급", ["react"], "d"⟩
        "https://storage/u1").isRecruiting = true
    ∧ (createPayload
        ⟨"local", "t", "월", "10:00", "11:00", "율전", "초급", ["react"], "d"⟩
        "https://storage/u1").semester = "Spring"
    ∧ (createPayload
        ⟨"local", "t", "월", "10:00", "11:00", "율전", "초급", ["react"], "d"⟩
        "https://storage/u1").year = 2025
    ∧ (createPayload
        ⟨"local", "t", "월", "10:00", "11:00", "율전", "초급", ["react"], "d"⟩
        "https://storage/u1").imageSrc = "https://storage/u1" :=
  have h := create_payload_constants ⟨some "pic.png", "https://storage/u1", true⟩
    ⟨"local", "t", "월", "10:00", "11:00", "율전", "초급", ["react"], "d"⟩
    (createPayload
      ⟨"local", "t", "월", "10:00", "11:00", "율전", "초급", ["react"], "d"⟩
      "https://storage/u1")
    (by decide)
  ⟨h.1, h.2.1, h.2.2.1, h.2.2.2.1⟩

/-! ## Claim theorems: time selector -/

/-- C9: calling either time-change handler with an undefined value leaves
every field and picker state unchanged, while a defined value stores the
formatted `HH:MM` string in the matching field and the value in the
matching picker state. -/
theorem timeChange_undefined_noop (s : TimeState) :
    onChangeStartTime none s = s
    ∧ onChangeEndTime none s = s
    ∧ ∀ d, (onChangeStartTime (some d) s).startTimeField
            = some (formatDateToTime d)
        ∧ (onChangeStartTime (some d) s).startTimePicker = some d
        ∧ (onChangeEndTime (some d) s).endTimeField
            = some (formatDateToTime d)
        ∧ (onChangeEndTime (some d) s).endTimePicker = some d :=
  ⟨rfl, rfl, fun _ => ⟨rfl, rfl, rfl, rfl⟩⟩

/-! ## Claim theorem: edit flow fetch (C3) -/

/-- C3: on a 404 response the edit page does NOT reach the not-found view.
`notFound()` throws, but the throw happens inside `fetchStudy`'s `try`
block, whose `catch` swallows every error: the generic destructive toast is
shown, `isLoading` becomes `false`, and the (unhydrated) form renders —
contradicting the claim that the not-found view is shown and no form is
rendered. -/
theorem edit_fetch_404_swallowed :
    fetchStudyTry ⟨false, 404, ⟨"", "", "", "", "", "", "", [], ""⟩⟩
      = .error .nextNotFound
    ∧ (fetchStudy ⟨false, 404, ⟨"", "", "", "", "", "", "", [], ""⟩⟩).notFoundViewShown
        = false
    ∧ (fetchStudy ⟨false, 404, ⟨"", "", "", "", "", "", "", [], ""⟩⟩).errorToastShown
        = true
    ∧ (fetchStudy ⟨false, 404, ⟨"", "", "", "", "", "", "", [], ""⟩⟩).isLoading
        = false :=
  ⟨rfl, rfl, rfl, rfl⟩

end Comit
